import Mathlib

/-!
Verification of the AUX backend's Spotify token-lifecycle manager, its
disconnect operation, its JWT issuance and its router registration, as a
shallow embedding of the Python source (`src/spotify/routes.py`,
`src/middleware/auth.py`, `src/auth/routes.py`, `config/settings.py`,
`main.py`).

Timestamps are modelled as integers (seconds since an arbitrary epoch); the
ISO-8601 string round-trip of `spotify_token_expires_at` in the source is
order- and value-preserving, so comparisons and arithmetic on the parsed
`datetime` values are mirrored directly on the integers.  External effects
(the provider's token endpoint, the Supabase store) are inputs and outputs
of the embedded functions: the provider's answer to a refresh request is a
parameter of type `Except String TokenInfo`, and the store updates the
function performed are collected in an output list.
-/

namespace Aux

/-- Truthiness of an optional string field, as Python's `not user.get(k)`:
`None` and the empty string are falsy. -/
def truthy : Option String → Bool
  | none => false
  | some s => s ≠ ""

/-- The credential-bearing slice of a row of the `users` table, as read by
`get_user_spotify_client` and `disconnect_spotify`.  `spotify_token_expires_at`
holds the parsed timestamp (the source stores it as an ISO string and parses
it with `datetime.fromisoformat` before use). -/
structure UserRecord where
  id : String
  spotify_access_token : Option String
  spotify_refresh_token : Option String
  spotify_token_expires_at : Option Int
  deriving Repr, DecidableEq

/-- The triple returned by the provider's token endpoint
(`sp_oauth.refresh_access_token` / `sp_oauth.get_access_token`). -/
structure TokenInfo where
  access_token : String
  refresh_token : String
  expires_in : Int
  deriving Repr, DecidableEq

/-- A FastAPI `HTTPException` as raised by the source: a status code and a
detail string. -/
structure HTTPException where
  status_code : Nat
  detail : String
  deriving Repr, DecidableEq

/-- `HTTPException(400, "Spotify not connected")` — the spec's
`NotConnectedError` (src/spotify/routes.py lines 38-41). -/
def notConnectedError : HTTPException :=
  { status_code := 400, detail := "Spotify not connected" }

/-- `HTTPException(401, ...)` raised when the token is near expiry and no
refresh token is on file — the spec's `ReconnectRequiredError`
(src/spotify/routes.py lines 51-55). -/
def reconnectRequiredError : HTTPException :=
  { status_code := 401
    detail := "Spotify token expired and no refresh token available, please reconnect" }

/-- `HTTPException(401, ...)` raised when the refresh attempt fails,
carrying the underlying cause — the spec's `RefreshFailedError`
(src/spotify/routes.py lines 86-90). -/
def refreshFailedError (cause : String) : HTTPException :=
  { status_code := 401
    detail := "Failed to refresh Spotify token: " ++ cause ++ ". Please reconnect." }

/-- One `supabase.table("users").update(update_data).eq("id", uid).execute()`
call: the row filter and the three credential fields written together. -/
structure StoreWrite where
  userId : String
  spotify_access_token : Option String
  spotify_refresh_token : Option String
  spotify_token_expires_at : Option Int
  deriving Repr, DecidableEq

instance {ε α : Type} [DecidableEq ε] [DecidableEq α] : DecidableEq (Except ε α) :=
  fun a b =>
    match a, b with
    | .ok x, .ok y =>
      if h : x = y then isTrue (by rw [h]) else isFalse (by intro hh; cases hh; exact h rfl)
    | .error x, .error y =>
      if h : x = y then isTrue (by rw [h]) else isFalse (by intro hh; cases hh; exact h rfl)
    | .ok _, .error _ => isFalse (by intro hh; cases hh)
    | .error _, .ok _ => isFalse (by intro hh; cases hh)

/-- Everything observable about one run of `get_user_spotify_client`: the
outcome (the auth token handed to `spotipy.Spotify`, or the exception
raised), the in-memory user dict after the call, the store updates executed,
and how many times the provider's refresh endpoint was called. -/
structure RunResult where
  outcome : Except HTTPException String
  user : UserRecord
  storeWrites : List StoreWrite
  refreshCalls : Nat
  deriving Repr, DecidableEq

/-- Shallow embedding of `get_user_spotify_client` (src/spotify/routes.py
lines 34-92).  `hasSupabase` is whether the optional `supabase` argument is
provided (non-`None`); `now` is the value of `datetime.now(timezone.utc)`
at the expiry check (line 47) and `nowAfterRefresh` its value when the new
expiry is computed after a successful refresh (line 65); `refreshResult` is
what `sp_oauth.refresh_access_token` would do if called: return a token
triple, or raise (with the exception's string). -/
def get_user_spotify_client (user : UserRecord) (hasSupabase : Bool)
    (now nowAfterRefresh : Int) (refreshResult : Except String TokenInfo) :
    RunResult :=
  if ¬ truthy user.spotify_access_token then
    { outcome := .error notConnectedError, user := user
      storeWrites := [], refreshCalls := 0 }
  else
    match user.spotify_token_expires_at with
    | none =>
      { outcome := .ok (user.spotify_access_token.getD ""), user := user
        storeWrites := [], refreshCalls := 0 }
    | some expires_at =>
      if expires_at ≤ now + 5 * 60 then
        if ¬ truthy user.spotify_refresh_token then
          { outcome := .error reconnectRequiredError, user := user
            storeWrites := [], refreshCalls := 0 }
        else
          match refreshResult with
          | .error e =>
            { outcome := .error (refreshFailedError e), user := user
              storeWrites := [], refreshCalls := 1 }
          | .ok token_info =>
            let new_expires_at := nowAfterRefresh + token_info.expires_in
            let update_data : StoreWrite :=
              { userId := user.id
                spotify_access_token := some token_info.access_token
                spotify_refresh_token := some token_info.refresh_token
                spotify_token_expires_at := some new_expires_at }
            let user' : UserRecord :=
              { user with
                spotify_access_token := some token_info.access_token
                spotify_refresh_token := some token_info.refresh_token
                spotify_token_expires_at := some new_expires_at }
            { outcome := .ok token_info.access_token, user := user'
              storeWrites := if hasSupabase then [update_data] else []
              refreshCalls := 1 }
      else
        { outcome := .ok (user.spotify_access_token.getD ""), user := user
          storeWrites := [], refreshCalls := 0 }

/-- What `disconnect_spotify` (src/spotify/routes.py lines 167-181) returns
in its `SpotifyConnectionStatus` response. -/
structure SpotifyConnectionStatus where
  connected : Bool
  deriving Repr, DecidableEq

/-- Shallow embedding of `disconnect_spotify`: the single store update it
executes and the response body it returns. -/
def disconnect_spotify (current_user : UserRecord) :
    StoreWrite × SpotifyConnectionStatus :=
  ({ userId := current_user.id
     spotify_access_token := none
     spotify_refresh_token := none
     spotify_token_expires_at := none },
   { connected := false })

/-- Effect of one `StoreWrite` on the row it filters on (`.eq("id", uid)`):
the three credential fields are replaced by the written values. -/
def applyStoreWrite (u : UserRecord) (w : StoreWrite) : UserRecord :=
  if u.id = w.userId then
    { u with
      spotify_access_token := w.spotify_access_token
      spotify_refresh_token := w.spotify_refresh_token
      spotify_token_expires_at := w.spotify_token_expires_at }
  else u

/-- A JWT claim value: a string claim, or a timestamp claim (the `datetime`
values the source puts under `exp` and `iat`). -/
inductive ClaimVal where
  | str (s : String)
  | time (t : Int)
  deriving Repr, DecidableEq

/-- Python's `dict.update` on an insertion-ordered association list:
an existing key is overwritten in place, a new key is appended. -/
def dictUpdate (d : List (String × ClaimVal)) :
    List (String × ClaimVal) → List (String × ClaimVal)
  | [] => d
  | (k, v) :: rest =>
    let d' :=
      if d.any (fun p => p.1 == k) then
        d.map (fun p => if p.1 == k then (k, v) else p)
      else d ++ [(k, v)]
    dictUpdate d' rest

/-- The JWT-relevant slice of `config/settings.py`'s `Settings`, with the
source's default values (`JWT_ALGORITHM = "HS256"`,
`JWT_ACCESS_TOKEN_EXPIRE_MINUTES = 43200` i.e. 30 days); `apiV1Path` models
the versioned API path setting, default `"/api/v1"`.  Environment overrides
are modelled by constructing a different `Settings` value. -/
structure Settings where
  JWT_SECRET_KEY : String := ""
  JWT_ALGORITHM : String := "HS256"
  JWT_ACCESS_TOKEN_EXPIRE_MINUTES : Int := 43200
  apiV1Path : String := "/api/v1"
  deriving Repr, DecidableEq

/-- The module-level `settings = Settings()` with no environment overrides. -/
def defaultSettings : Settings := {}

/-- The result of `jose.jwt.encode(payload, key, algorithm)`: the encoding
itself is injective in its three inputs, so the token is modelled by them. -/
structure EncodedJwt where
  payload : List (String × ClaimVal)
  key : String
  algorithm : String
  deriving Repr, DecidableEq

/-- Shallow embedding of `create_access_token` (src/middleware/auth.py lines
21-34).  `now` is `datetime.now(timezone.utc)`; `s` is the module-level
`settings`. -/
def create_access_token (data : List (String × ClaimVal)) (now : Int)
    (expires_delta : Option Int) (s : Settings) : EncodedJwt :=
  let to_encode := data
  let expire : Int :=
    match expires_delta with
    | some d => now + d
    | none => now + s.JWT_ACCESS_TOKEN_EXPIRE_MINUTES * 60
  let to_encode := dictUpdate to_encode
    [("exp", .time expire), ("iat", .time now), ("type", .str "access")]
  { payload := to_encode, key := s.JWT_SECRET_KEY, algorithm := s.JWT_ALGORITHM }

/-- The token minted at sign-in: src/auth/routes.py line 78 calls
`create_access_token(data={"sub": str(user["id"])})` with no
`expires_delta`. -/
def google_sign_in_token (user_id : String) (now : Int) (s : Settings) :
    EncodedJwt :=
  create_access_token [("sub", .str user_id)] now none s

/-- The six route areas whose modules define an `APIRouter` under `src/`. -/
inductive RouterModule where
  | auth | users | posts | notifications | storage | spotify
  deriving Repr, DecidableEq

/-- The sub-path each module's `APIRouter` declares (the `APIRouter(...)`
argument in each `routes.py`; the auth router declares none). -/
def routerPath : RouterModule → String
  | .auth => ""
  | .users => "/users"
  | .posts => "/posts"
  | .notifications => "/notifications"
  | .storage => "/storage"
  | .spotify => "/spotify"

/-- The routers mounted by `app.include_router` in `main.py` lines 53-57, in
source order; each is mounted under the versioned API path
(`settings.API_V1_PREFIX` in the source, `Settings.apiV1Path` here). -/
def app_registered_routers : List RouterModule :=
  [.auth, .users, .posts, .spotify, .storage]

/-- The path roots the application serves: the versioned API path prepended
to each mounted router's own sub-path. -/
def app_route_roots (s : Settings) : List String :=
  app_registered_routers.map (fun r => s.apiV1Path ++ routerPath r)

/-- C2: for a user with an access token on file and `expires_at` strictly
more than 5 minutes in the future, `get_user_spotify_client` returns the
stored access token unchanged, calls the provider's token endpoint zero
times, writes nothing to the store and leaves the in-memory record
unmodified. -/
theorem C2_valid_token_passthrough (u : UserRecord) (tok : String)
    (e now na : Int) (hs : Bool) (rr : Except String TokenInfo)
    (htok : u.spotify_access_token = some tok) (hne : tok ≠ "")
    (hexp : u.spotify_token_expires_at = some e) (hfut : now + 5 * 60 < e) :
    get_user_spotify_client u hs now na rr =
      { outcome := .ok tok, user := u, storeWrites := [], refreshCalls := 0 } := by
  have hc : ¬ (e ≤ now + 300) := by omega
  simp [get_user_spotify_client, truthy, htok, hne, hexp, hc]

/-- Witness for C2 at a concrete near-future-free record. -/
theorem C2_valid_token_passthrough_witness :
    get_user_spotify_client ⟨"u1", some "at1", some "rt1", some 1000⟩ true 0 0
        (.error "boom") =
      { outcome := .ok "at1", user := ⟨"u1", some "at1", some "rt1", some 1000⟩
        storeWrites := [], refreshCalls := 0 } :=
  C2_valid_token_passthrough ⟨"u1", some "at1", some "rt1", some 1000⟩ "at1"
    1000 0 0 true (.error "boom") rfl (by decide) rfl (by decide)

/-- C3: for a user with no access token on file (absent or empty),
`get_user_spotify_client` fails with the not-connected error
(`HTTPException(400, "Spotify not connected")`), makes no provider call and
changes nothing, whatever the other credential fields. -/
theorem C3_not_connected (u : UserRecord) (hs : Bool) (now na : Int)
    (rr : Except String TokenInfo)
    (h : u.spotify_access_token = none ∨ u.spotify_access_token = some "") :
    get_user_spotify_client u hs now na rr =
      { outcome := .error notConnectedError, user := u
        storeWrites := [], refreshCalls := 0 } := by
  have ht : truthy u.spotify_access_token = false := by
    rcases h with h | h <;> simp [truthy, h]
  simp [get_user_spotify_client, ht]

/-- Witness for C3 at a concrete record with an empty access token. -/
theorem C3_not_connected_witness :
    get_user_spotify_client ⟨"u1", some "", some "rt1", some 0⟩ true 99 99
        (.ok ⟨"at2", "rt2", 3600⟩) =
      { outcome := .error notConnectedError
        user := ⟨"u1", some "", some "rt1", some 0⟩
        storeWrites := [], refreshCalls := 0 } :=
  C3_not_connected ⟨"u1", some "", some "rt1", some 0⟩ true 99 99
    (.ok ⟨"at2", "rt2", 3600⟩) (Or.inr rfl)

/-- C4: for a user with an access token, an `expires_at` within 5 minutes of
now (or past), and no refresh token on file, `get_user_spotify_client` fails
with the reconnect-required error without calling the provider and without
touching the record or the store. -/
theorem C4_reconnect_required (u : UserRecord) (tok : String) (e now na : Int)
    (hs : Bool) (rr : Except String TokenInfo)
    (htok : u.spotify_access_token = some tok) (hne : tok ≠ "")
    (hexp : u.spotify_token_expires_at = some e) (hnear : e ≤ now + 5 * 60)
    (hrt : u.spotify_refresh_token = none) :
    get_user_spotify_client u hs now na rr =
      { outcome := .error reconnectRequiredError, user := u
        storeWrites := [], refreshCalls := 0 } := by
  have hnear' : e ≤ now + 300 := by omega
  simp [get_user_spotify_client, truthy, htok, hne, hexp, hnear', hrt]

/-- Witness for C4 at a concrete expired record with no refresh token. -/
theorem C4_reconnect_required_witness :
    get_user_spotify_client ⟨"u1", some "at1", none, some 100⟩ true 100 100
        (.ok ⟨"at2", "rt2", 3600⟩) =
      { outcome := .error reconnectRequiredError
        user := ⟨"u1", some "at1", none, some 100⟩
        storeWrites := [], refreshCalls := 0 } :=
  C4_reconnect_required ⟨"u1", some "at1", none, some 100⟩ "at1" 100 100 100
    true (.ok ⟨"at2", "rt2", 3600⟩) rfl (by decide) rfl (by decide) rfl

/-- C5: for a near-expiry user with a refresh token, a provider-side refresh
failure makes exactly one refresh attempt, fails with the refresh-failed
error carrying the underlying cause, and leaves both the store (no write)
and the in-memory record unchanged. -/
theorem C5_refresh_failure_no_partial_update (u : UserRecord) (tok rt : String)
    (e now na : Int) (hs : Bool) (cause : String)
    (htok : u.spotify_access_token = some tok) (hne : tok ≠ "")
    (hexp : u.spotify_token_expires_at = some e) (hnear : e ≤ now + 5 * 60)
    (hrt : u.spotify_refresh_token = some rt) (hrne : rt ≠ "") :
    get_user_spotify_client u hs now na (.error cause) =
      { outcome := .error (refreshFailedError cause), user := u
        storeWrites := [], refreshCalls := 1 } := by
  have hnear' : e ≤ now + 300 := by omega
  simp [get_user_spotify_client, truthy, htok, hne, hexp, hnear', hrt, hrne]

/-- Witness for C5 at a concrete expired record where the provider raises. -/
theorem C5_refresh_failure_witness :
    get_user_spotify_client ⟨"u1", some "at1", some "rt1", some 0⟩ true 0 0
        (.error "revoked") =
      { outcome := .error (refreshFailedError "revoked")
        user := ⟨"u1", some "at1", some "rt1", some 0⟩
        storeWrites := [], refreshCalls := 1 } :=
  C5_refresh_failure_no_partial_update ⟨"u1", some "at1", some "rt1", some 0⟩
    "at1" "rt1" 0 0 0 true "revoked" rfl (by decide) rfl (by decide) rfl
    (by decide)

/-- C6: for a user with an access token and no `expires_at` on file,
`get_user_spotify_client` never attempts a refresh and returns the stored
token unchanged, whatever the wall-clock time and whatever the provider
would answer. -/
theorem C6_no_expiry_never_refreshes (u : UserRecord) (tok : String)
    (hs : Bool) (now na : Int) (rr : Except String TokenInfo)
    (htok : u.spotify_access_token = some tok) (hne : tok ≠ "")
    (hexp : u.spotify_token_expires_at = none) :
    get_user_spotify_client u hs now na rr =
      { outcome := .ok tok, user := u, storeWrites := [], refreshCalls := 0 } := by
  simp [get_user_spotify_client, truthy, htok, hne, hexp]

/-- Witness for C6 at a concrete record lacking an expiry. -/
theorem C6_no_expiry_witness :
    get_user_spotify_client ⟨"u1", some "at1", some "rt1", none⟩ true 999999 0
        (.ok ⟨"at2", "rt2", 3600⟩) =
      { outcome := .ok "at1", user := ⟨"u1", some "at1", some "rt1", none⟩
        storeWrites := [], refreshCalls := 0 } :=
  C6_no_expiry_never_refreshes ⟨"u1", some "at1", some "rt1", none⟩ "at1" true
    999999 0 (.ok ⟨"at2", "rt2", 3600⟩) rfl (by decide) rfl

/-- C1: for a near-expiry user with a refresh token, when a store client is
provided and the provider's refresh succeeds, `get_user_spotify_client`
makes exactly one refresh call, executes exactly one store update carrying
all three new credential fields (access token, refresh token, and
expires_at = now + expires_in), updates the in-memory record with the same
three values, and returns the new access token. -/
theorem C1_refresh_persists_all_three (u : UserRecord) (tok rt : String)
    (e now na : Int) (ti : TokenInfo)
    (htok : u.spotify_access_token = some tok) (hne : tok ≠ "")
    (hrt : u.spotify_refresh_token = some rt) (hrne : rt ≠ "")
    (hexp : u.spotify_token_expires_at = some e) (hnear : e ≤ now + 5 * 60) :
    get_user_spotify_client u true now na (.ok ti) =
      { outcome := .ok ti.access_token
        user := { u with
          spotify_access_token := some ti.access_token
          spotify_refresh_token := some ti.refresh_token
          spotify_token_expires_at := some (na + ti.expires_in) }
        storeWrites := [{ userId := u.id
                          spotify_access_token := some ti.access_token
                          spotify_refresh_token := some ti.refresh_token
                          spotify_token_expires_at := some (na + ti.expires_in) }]
        refreshCalls := 1 } := by
  have hnear' : e ≤ now + 300 := by omega
  simp [get_user_spotify_client, truthy, htok, hne, hexp, hnear', hrt, hrne]

/-- Witness for C1: the spec's end-to-end example — expired one second ago,
provider answers (at2, rt2, 3600); the call returns at2 and persists
expires_at = now + 3600. -/
theorem C1_refresh_persists_witness :
    get_user_spotify_client ⟨"u1", some "at1", some "rt1", some (-1)⟩ true 0 0
        (.ok ⟨"at2", "rt2", 3600⟩) =
      { outcome := .ok "at2"
        user := ⟨"u1", some "at2", some "rt2", some 3600⟩
        storeWrites := [⟨"u1", some "at2", some "rt2", some 3600⟩]
        refreshCalls := 1 } :=
  C1_refresh_persists_all_three ⟨"u1", some "at1", some "rt1", some (-1)⟩
    "at1" "rt1" (-1) 0 0 ⟨"at2", "rt2", 3600⟩ rfl (by decide) rfl (by decide)
    rfl (by decide)

/-- C7: `disconnect_spotify` unconditionally issues a single store update
setting all three credential fields to absent and reports
`connected = false`; on the record resulting from that update, a subsequent
`get_user_spotify_client` call fails with the not-connected error and makes
no provider call. -/
theorem C7_disconnect_clears_all (u : UserRecord) (hs : Bool) (now na : Int)
    (rr : Except String TokenInfo) :
    disconnect_spotify u =
      ({ userId := u.id
         spotify_access_token := none
         spotify_refresh_token := none
         spotify_token_expires_at := none },
       { connected := false }) ∧
    get_user_spotify_client (applyStoreWrite u (disconnect_spotify u).1)
        hs now na rr =
      { outcome := .error notConnectedError
        user := applyStoreWrite u (disconnect_spotify u).1
        storeWrites := [], refreshCalls := 0 } := by
  refine ⟨rfl, ?_⟩
  simp [disconnect_spotify, applyStoreWrite, get_user_spotify_client, truthy]

/-- C10: when no store client is supplied (`supabase is None`), a successful
refresh of a near-expiry record updates only the in-memory record — the
store write list is empty — and the new access token is still returned. -/
theorem C10_no_store_client_frame (u : UserRecord) (tok rt : String)
    (e now na : Int) (ti : TokenInfo)
    (htok : u.spotify_access_token = some tok) (hne : tok ≠ "")
    (hrt : u.spotify_refresh_token = some rt) (hrne : rt ≠ "")
    (hexp : u.spotify_token_expires_at = some e) (hnear : e ≤ now + 5 * 60) :
    get_user_spotify_client u false now na (.ok ti) =
      { outcome := .ok ti.access_token
        user := { u with
          spotify_access_token := some ti.access_token
          spotify_refresh_token := some ti.refresh_token
          spotify_token_expires_at := some (na + ti.expires_in) }
        storeWrites := []
        refreshCalls := 1 } := by
  have hnear' : e ≤ now + 300 := by omega
  simp [get_user_spotify_client, truthy, htok, hne, hexp, hnear', hrt, hrne]

/-- Witness for C10 at the same concrete refresh scenario with no store
client: nothing is written, the token is still returned. -/
theorem C10_no_store_client_witness :
    get_user_spotify_client ⟨"u1", some "at1", some "rt1", some (-1)⟩ false 0 0
        (.ok ⟨"at2", "rt2", 3600⟩) =
      { outcome := .ok "at2"
        user := ⟨"u1", some "at2", some "rt2", some 3600⟩
        storeWrites := []
        refreshCalls := 1 } :=
  C10_no_store_client_frame ⟨"u1", some "at1", some "rt1", some (-1)⟩
    "at1" "rt1" (-1) 0 0 ⟨"at2", "rt2", 3600⟩ rfl (by decide) rfl (by decide)
    rfl (by decide)

/-- C8 counterexample: the sign-in token's payload is not the single subject
claim — beside `sub` (and the expiry `exp`) it also carries an `iat` claim
and a `type = "access"` claim, refuting "its payload's only claim is the
subject". -/
theorem C8_single_claim_counterexample :
    ("type", ClaimVal.str "access") ∈
      (google_sign_in_token "42" 0 defaultSettings).payload ∧
    ("iat", ClaimVal.time 0) ∈
      (google_sign_in_token "42" 0 defaultSettings).payload ∧
    (google_sign_in_token "42" 0 defaultSettings).payload.map Prod.fst ≠
      ["sub"] := by
  decide

/-- C8 amended: with the default settings the sign-in token is signed with
HS256 and expires 43200 minutes (= 30 days) after issuance, and its payload
carries the subject claim set to the user's id together with `exp`, `iat`
and a `type = "access"` claim. -/
theorem C8_amended_token_shape (uid : String) (now : Int) :
    google_sign_in_token uid now defaultSettings =
      { payload := [("sub", .str uid), ("exp", .time (now + 43200 * 60)),
                    ("iat", .time now), ("type", .str "access")]
        key := "", algorithm := "HS256" } ∧
    (43200 : Int) * 60 = 30 * 24 * 60 * 60 := by
  exact ⟨rfl, by norm_num⟩

/-- C9 counterexample: the notifications router is not among the routers
`main.py` mounts, so it is not the case that every one of the six route
areas is registered. -/
theorem C9_notifications_not_registered :
    RouterModule.notifications ∉ app_registered_routers ∧
    ¬ ∀ m : RouterModule, m ∈ app_registered_routers :=
  ⟨by decide, fun h => absurd (h .notifications) (by decide)⟩

/-- C9 amended: `main.py` registers, each under the versioned path root,
the routers of five of the six areas — auth, users, posts, spotify and
storage — while the notifications router, though defined, is never
mounted. -/
theorem C9_amended_five_registered :
    RouterModule.auth ∈ app_registered_routers ∧
    RouterModule.users ∈ app_registered_routers ∧
    RouterModule.posts ∈ app_registered_routers ∧
    RouterModule.spotify ∈ app_registered_routers ∧
    RouterModule.storage ∈ app_registered_routers ∧
    RouterModule.notifications ∉ app_registered_routers ∧
    app_route_roots defaultSettings =
      ["/api/v1", "/api/v1/users", "/api/v1/posts", "/api/v1/spotify",
       "/api/v1/storage"] := by
  decide

end Aux
